import Mathlib

/-!
Shallow embedding of the KiloLend MCP Wallet Agent (src/agent/wallet.ts and
src/config).  Pure configuration tables are transcribed verbatim; the
agent's chain interaction is modelled as an oracle (responses to reads)
plus an ordered trace of chain calls emitted by each operation.  Thrown
JS exceptions become `Except` errors; every operation returns the result
together with the list of chain-client calls it performed, in order.
-/

namespace KiloLend

/-- The three supported networks (config: `type NetworkType`). -/
inductive NetworkType where
  | kaia
  | kub
  | etherlink
deriving DecidableEq, Repr

/-- One entry of `TOKEN_CONFIGS` (config: name, symbol, decimals, address). -/
structure TokenEntry where
  name : String
  symbol : String
  decimals : Nat
  address : String
deriving DecidableEq, Repr

/-- Table `TOKEN_CONFIGS` from src/config, transcribed per network. -/
def TOKEN_CONFIGS : NetworkType → List TokenEntry
  | .kaia =>
    [⟨"Tether USD", "USDT", 6, "0xd077A400968890Eacc75cdc901F0356c943e4fDb"⟩,
     ⟨"SIX Token", "SIX", 18, "0xEf82b1C6A550e730D8283E1eDD4977cd01FAF435"⟩,
     ⟨"BORA Token", "BORA", 18, "0x02cbE46fB8A1F579254a9B485788f2D86Cad51aa"⟩,
     ⟨"MARBLEX Token", "MBX", 18, "0xD068c52d81f4409B9502dA926aCE3301cc41f623"⟩,
     ⟨"KAIA", "KAIA", 18, "0xEeeeeEeeeEeEeeEeEeEeeEEEeeeeEeeeeeeeEEeE"⟩,
     ⟨"Lair Staked KAIA", "stKAIA", 18, "0x42952b873ed6f7f0a7e4992e2a9818e3a9001995"⟩]
  | .kub =>
    [⟨"KUB Tether USD", "KUSDT", 6, "0x2C03058C8AFC06713be23e58D2febC8337dbfE6A"⟩,
     ⟨"KUB Token", "KUB", 18, "0xEeeeeEeeeEeEeeEeEeEeeEEEeeeeEeeeeeeeEEeE"⟩]
  | .etherlink =>
    [⟨"Tether USD", "USDT", 6, "0x2C03058C8AFC06713be23e58D2febC8337dbfE6A"⟩,
     ⟨"Tezos", "XTZ", 18, "0xEeeeeEeeeEeEeeEeEeEeeEEEeeeeEeeeeeeeEEeE"⟩]

/-- Table `CHAIN_CONTRACTS` from src/config: ordered key/address pairs, exactly as
the object literals list them (`Object.entries` preserves this order). -/
def CHAIN_CONTRACTS : NetworkType → List (String × String)
  | .kaia =>
    [("Comptroller", "0x2591d179a0B1dB1c804210E111035a3a13c95a48"),
     ("KiloOracle", "0xE370336C3074E76163b2f9B07876d0Cb3425488D"),
     ("StablecoinJumpRateModel", "0x9948DFaC28D39c2EeDB7543E24c28df2922568A6"),
     ("VolatileRateModel", "0x836B1A7A6996cC04bA2387e691c7947679A1eF0d"),
     ("cUSDT", "0x20A2Cbc68fbee094754b2F03d15B1F5466f1F649"),
     ("cSIX", "0x287770f1236AdbE3F4dA4f29D0f1a776f303C966"),
     ("cBORA", "0xA7247a6f5EaC85354642e0E90B515E2dC027d5F4"),
     ("cMBX", "0xa024B1DE3a6022FB552C2ED9a8050926Fb22d7b6"),
     ("cKAIA", "0x2029f3E3C667EBd68b1D29dbd61dc383BdbB56e5"),
     ("cStKAIA", "0x8A424cCf2D2B7D85F1DFb756307411D2BBc73e07")]
  | .kub =>
    [("Comptroller", "0x42f098E6aE5e81f357D3fD6e104BAA77A195133A"),
     ("KiloOracle", "0xE370336C3074E76163b2f9B07876d0Cb3425488D"),
     ("StablecoinRateModel", "0x7a4399356987E22156b9a0f8449E0a5a9713D5a6"),
     ("VolatileRateModel", "0x790057160a6B183C80C0514f644eA6BCE9EDa0D4"),
     ("cKUSDT", "0x5E9aF11F9a09174B87550B4Bfb4EdE65De933085"),
     ("cKUB", "0x0cA8DaD1e517a9BB760Ba0C27051C4C3A036eA75")]
  | .etherlink =>
    [("Comptroller", "0x42f098E6aE5e81f357D3fD6e104BAA77A195133A"),
     ("KiloOracle", "0xE370336C3074E76163b2f9B07876d0Cb3425488D"),
     ("StablecoinRateModel", "0x7a4399356987E22156b9a0f8449E0a5a9713D5a6"),
     ("VolatileRateModel", "0x790057160a6B183C80C0514f644eA6BCE9EDa0D4"),
     ("cUSDT", "0x5E9aF11F9a09174B87550B4Bfb4EdE65De933085"),
     ("cXTZ", "0x0cA8DaD1e517a9BB760Ba0C27051C4C3A036eA75")]

/-- Constant `CHAIN_CONFIGS[net].blocksPerYear` from src/config. -/
def blocksPerYear : NetworkType → Nat
  | .kaia => 15768000
  | .kub => 6307200
  | .etherlink => 39420000

/-- Constant `networkConfigs[net].nativeCurrency` from src/config. -/
def nativeCurrency : NetworkType → String
  | .kaia => "KAIA"
  | .kub => "KUB"
  | .etherlink => "XTZ"

/-- Model of JS `String.prototype.toLowerCase` over the character list
(ASCII-correct, which covers every symbol in the configuration).  Stated
over `String.data` so that it evaluates by kernel reduction. -/
def jsToLower (s : String) : String := String.mk (s.data.map Char.toLower)

/-- Model of JS `String.prototype.trim`: strip whitespace at both ends. -/
def jsTrim (s : String) : String :=
  String.mk (((s.data.dropWhile Char.isWhitespace).reverse.dropWhile
    Char.isWhitespace).reverse)

/-- Model of JS `String.prototype.startsWith` for a literal. -/
def jsStartsWith (s pre : String) : Bool := pre.data.isPrefixOf s.data

/-- Model of JS `String.prototype.substring(n)` (drop the first n chars). -/
def jsDrop (s : String) (n : Nat) : String := String.mk (s.data.drop n)

/-- Decimal-digit parse of a string, the shared semantics of JS
`BigInt(decimalString)` and the integer parts of viem's `parseUnits`. -/
def decStringToNat (s : String) : Nat :=
  if s.data ≠ [] ∧ s.data.all Char.isDigit then
    s.data.foldl (fun n c => n * 10 + (c.toNat - 48)) 0
  else 0

/-- Address `this.getContractAddresses().Comptroller` for a network. -/
def comptrollerAddress (net : NetworkType) : String :=
  (((CHAIN_CONTRACTS net).find? (fun kv => kv.1 = "Comptroller")).map
    (fun kv => kv.2)).getD ""

/-- Lookup `getTokenAddresses()[symbol]`: the token table keyed by symbol
(symbols are pairwise distinct per network, so first match is the map). -/
def getTokenAddress (net : NetworkType) (symbol : String) : Option String :=
  ((TOKEN_CONFIGS net).find? (fun t => t.symbol = symbol)).map (fun t => t.address)

/-- Lookup `getCTokenAddresses()[symbol]`: contract-table keys beginning with
`"c"` are markets; the key minus the prefix is the underlying symbol
(wallet.ts `getCTokenAddresses`). -/
def getCTokenAddress (net : NetworkType) (symbol : String) : Option String :=
  (((CHAIN_CONTRACTS net).filterMap
      (fun kv =>
        if jsStartsWith kv.1 "c" then some (jsDrop kv.1 1, kv.2) else none)).find?
    (fun kv => kv.1 = symbol)).map (fun kv => kv.2)

/-- Check `contracts[key]` existence (a configured address string is truthy). -/
def hasContractKey (net : NetworkType) (key : String) : Bool :=
  (CHAIN_CONTRACTS net).any (fun kv => kv.1 = key)

/-- wallet.ts `getTokenDecimals`: `token?.decimals || 18` (JS `||` maps a
zero decimals value to 18 as well). -/
def getTokenDecimals (net : NetworkType) (symbol : String) : Nat :=
  match (TOKEN_CONFIGS net).find? (fun t => t.symbol = symbol) with
  | some t => if t.decimals = 0 then 18 else t.decimals
  | none => 18

/-- The max-uint256 constant appearing literally throughout wallet.ts
(`maxUint256` / `BigInt('115792...935')`); its value is 2^256 - 1. -/
def maxUint256 : Nat :=
  115792089237316195423570985008687907853269984665640564039457584007913129639935

/-- The literal decimal string wallet.ts returns for a native-token
allowance (line 577). -/
def MAX_UINT256_STRING : String :=
  "115792089237316195423570985008687907853269984665640564039457584007913129639935"

/-- Modelled from the spec: viem's `parseUnits(value, decimals)` (external
dependency, not part of this repository) converts a nonnegative decimal
string into a fixed-point integer with the given number of decimals;
excess fractional digits beyond `decimals` are dropped here. -/
def parseUnits (value : String) (decimals : Nat) : Nat :=
  match (value.data.splitOn '.').map String.mk with
  | [i] => decStringToNat i * 10 ^ decimals
  | [i, f] =>
    decStringToNat i * 10 ^ decimals +
      decStringToNat
        (String.mk (f.data.take decimals ++
          List.replicate (decimals - (f.data.take decimals).length) '0'))
  | _ => 0

/-- The inner loop of wallet.ts `resolveTokenSymbol` (lines 141-156): for
one contract-table entry, if its key is a `c`-prefixed market key whose
root matches the normalized input, answer with the token-table symbol of
that root when one exists, else with the root itself. -/
def resolveFromContracts (net : NetworkType) (normalizedInput : String)
    (kv : String × String) : Option String :=
  if jsStartsWith kv.1 "c" then
    if jsToLower (jsDrop kv.1 1) = normalizedInput then
      match (TOKEN_CONFIGS net).find?
          (fun t => jsToLower t.symbol = jsToLower (jsDrop kv.1 1)) with
      | some t => some t.symbol
      | none => some (jsDrop kv.1 1)
    else none
  else none

/-- wallet.ts `resolveTokenSymbol`: case-insensitive canonicalization of a
token symbol against the active network's token table, then the special
alias table (`stkaia -> stKAIA`), then the cToken contract keys, finally
falling back to the raw input. -/
def resolveTokenSymbol (net : NetworkType) (inputSymbol : String) : String :=
  match (TOKEN_CONFIGS net).find?
      (fun t => jsToLower t.symbol = jsTrim (jsToLower inputSymbol)) with
  | some t => t.symbol
  | none =>
    match
      (if jsTrim (jsToLower inputSymbol) = "stkaia" then
        (TOKEN_CONFIGS net).find?
          (fun t => t.symbol = "stKAIA" ∨ t.symbol = "StKAIA")
      else none) with
    | some mappedToken => mappedToken.symbol
    | none =>
      match (CHAIN_CONTRACTS net).findSome?
          (resolveFromContracts net (jsTrim (jsToLower inputSymbol))) with
      | some s => s
      | none => inputSymbol

/-- wallet.ts `getCanonicalSymbolForCToken`: resolve, then pick whichever
of the resolved symbol, the raw input, or the StKAIA capitalization
variants has a `c`-prefixed contract key; else return the resolved symbol. -/
def getCanonicalSymbolForCToken (net : NetworkType) (inputSymbol : String) : String :=
  if hasContractKey net ("c" ++ resolveTokenSymbol net inputSymbol) then
    resolveTokenSymbol net inputSymbol
  else if hasContractKey net ("c" ++ inputSymbol) then
    inputSymbol
  else
    match ["StKAIA", "stKAIA", "STKAIA"].find?
        (fun v => hasContractKey net ("c" ++ v)) with
    | some v => v
    | none => resolveTokenSymbol net inputSymbol

/-! ## Chain interaction model

Each wallet-agent operation is a pure function of the agent configuration,
an oracle supplying the chain's answers to reads, and the inputs.  It
returns the operation's result (or the thrown error) together with the
ordered list of chain-client calls performed. -/

/-- One call to the chain client: a contract read, a submitted transaction
(`writeContract`/`sendTransaction`), or a native-balance query.  `addrArgs`
records address-valued arguments and `amountArgs` the uint256-valued ones;
`value` is the native value attached to a payable call. -/
inductive ChainCall where
  | read (addr : String) (fn : String) (addrArgs : List String)
  | write (addr : String) (fn : String) (addrArgs : List String)
      (amountArgs : List Nat) (value : Option Nat)
  | getBalance (addr : String)
deriving DecidableEq, Repr

/-- The errors wallet.ts throws (src/utils/errors plus the plain `Error`
of `requireTransactionMode`). -/
inductive AgentError where
  | transactionModeRequired
  | validationError (msg : String)
  | insufficientBalance (symbol : String) (requested : String) (available : String)
  | contractError
deriving DecidableEq, Repr

/-- The chain's answers to the reads an operation can perform. -/
structure ChainOracle where
  allowance : String → String → Nat
  marketMember : String → Bool
  cTokenBalance : String → Nat
  nativeBalance : Nat

/-- The agent configuration relevant to the embedded operations:
the active network and whether it was constructed without a signing
identity (`isReadonly`, wallet.ts constructor). -/
structure WalletAgent where
  currentNetwork : NetworkType
  isReadonly : Bool

/-- Placeholder transaction identifier returned by a successful submission. -/
def txHash : String := "0xtx"

deriving instance DecidableEq for Except

/-- The result of an operation: the value returned or error thrown, plus
the trace of chain calls. -/
abbrev OpResult (α : Type) := Except AgentError α × List ChainCall

/-- wallet.ts `requireTransactionMode` (lines 972-976): in read-only mode
every mutating operation throws before doing anything else. -/
def requireTransactionMode (a : WalletAgent) : Except AgentError Unit :=
  if a.isReadonly then .error .transactionModeRequired else .ok ()

/-- wallet.ts `checkAllowance` (lines 564-592), returning the allowance as
a decimal string exactly as the source does: the max-uint256 literal for
the native currency (no chain read), otherwise the on-chain allowance. -/
def checkAllowance (net : NetworkType) (o : ChainOracle)
    (tokenSymbol spenderAddress : String) : OpResult String :=
  match getTokenAddress net (resolveTokenSymbol net tokenSymbol) with
  | none => (.error (.validationError ("Token " ++ tokenSymbol ++ " not supported")), [])
  | some tokenAddress =>
    if resolveTokenSymbol net tokenSymbol = nativeCurrency net then
      (.ok MAX_UINT256_STRING, [])
    else
      (.ok (toString (o.allowance tokenAddress spenderAddress)),
       [.read tokenAddress "allowance" [spenderAddress]])

/-- Composition of `checkAllowance` with the caller-side `BigInt(...)` parse
(supply/repay read the returned string straight back into a bigint; the
strings produced are canonical decimal renderings, so the parse is fused
into the numeric value here). -/
def checkAllowanceNat (net : NetworkType) (o : ChainOracle)
    (tokenSymbol spenderAddress : String) : OpResult Nat :=
  match getTokenAddress net (resolveTokenSymbol net tokenSymbol) with
  | none => (.error (.validationError ("Token " ++ tokenSymbol ++ " not supported")), [])
  | some tokenAddress =>
    if resolveTokenSymbol net tokenSymbol = nativeCurrency net then
      (.ok maxUint256, [])
    else
      (.ok (o.allowance tokenAddress spenderAddress),
       [.read tokenAddress "allowance" [spenderAddress]])

/-- wallet.ts `approveToken` (lines 594-628): mode guard, resolution,
native-token rejection, then one `approve` submission; an omitted amount
approves max-uint256. -/
def approveToken (a : WalletAgent) (tokenSymbol spenderAddress : String)
    (amount : Option String) : OpResult String :=
  if a.isReadonly then (.error .transactionModeRequired, [])
  else
    match getTokenAddress a.currentNetwork
        (resolveTokenSymbol a.currentNetwork tokenSymbol) with
    | none => (.error (.validationError ("Token " ++ tokenSymbol ++ " not supported")), [])
    | some tokenAddress =>
      if resolveTokenSymbol a.currentNetwork tokenSymbol =
          nativeCurrency a.currentNetwork then
        (.error (.validationError (nativeCurrency a.currentNetwork ++
          " is native token and does not require approval")), [])
      else
        (.ok txHash,
         [.write tokenAddress "approve" [spenderAddress]
           [(match amount with
             | some s => parseUnits s (getTokenDecimals a.currentNetwork
                 (resolveTokenSymbol a.currentNetwork tokenSymbol))
             | none => maxUint256)] none])

/-- wallet.ts `checkMarketMembership` (lines 631-650): one `getAssetsIn`
read against the comptroller. -/
def checkMarketMembership (net : NetworkType) (o : ChainOracle)
    (cTokenAddress : String) : Bool × List ChainCall :=
  (o.marketMember cTokenAddress, [.read (comptrollerAddress net) "getAssetsIn" []])

/-- wallet.ts `enterMarkets` (lines 652-670): mode guard then one
`enterMarkets` submission to the comptroller. -/
def enterMarkets (a : WalletAgent) (cTokenAddresses : List String) : OpResult String :=
  if a.isReadonly then (.error .transactionModeRequired, [])
  else
    (.ok txHash,
     [.write (comptrollerAddress a.currentNetwork) "enterMarkets"
       cTokenAddresses [] none])

/-- Modelled from the spec: `validateTransactionParams` (src/utils/validation
is not among the provided sources) — recipient address well-formedness and
amount positivity/format, checked before any network interaction. -/
def validateTransactionParams (toAddr amount : String) : Bool :=
  jsStartsWith toAddr "0x" && decide (amount.data ≠ [])

/-- wallet.ts `sendNativeToken` (lines 674-704): mode guard, parameter
validation, balance read, insufficient-balance check, then a plain value
transfer. -/
def sendNativeToken (a : WalletAgent) (o : ChainOracle)
    (toAddr amount : String) : OpResult String :=
  if a.isReadonly then (.error .transactionModeRequired, [])
  else if !validateTransactionParams toAddr amount then
    (.error (.validationError "invalid transaction parameters"), [])
  else
    if o.nativeBalance < parseUnits amount 18 then
      (.error (.insufficientBalance (nativeCurrency a.currentNetwork) amount
        (toString o.nativeBalance)), [.getBalance "self"])
    else
      (.ok txHash,
       [.getBalance "self",
        .write toAddr "sendTransaction" [] [] (some (parseUnits amount 18))])

/-- wallet.ts `sendERC20Token` (lines 706-737): mode guard, validation,
resolution, then one `transfer` submission. -/
def sendERC20Token (a : WalletAgent) (tokenSymbol toAddr amount : String) : OpResult String :=
  if a.isReadonly then (.error .transactionModeRequired, [])
  else if !validateTransactionParams toAddr amount then
    (.error (.validationError "invalid transaction parameters"), [])
  else
    match getTokenAddress a.currentNetwork
        (resolveTokenSymbol a.currentNetwork tokenSymbol) with
    | none => (.error (.validationError ("Token " ++ tokenSymbol ++ " not supported")), [])
    | some tokenAddress =>
      (.ok txHash,
       [.write tokenAddress "transfer" [toAddr]
         [parseUnits amount (getTokenDecimals a.currentNetwork
           (resolveTokenSymbol a.currentNetwork tokenSymbol))] none])

/-- wallet.ts `supplyToMarket` (lines 739-802): mode guard, market
resolution, membership check with auto-enter, then for non-native
underlyings an allowance check with max-uint256 approval when short, and
finally the `mint` call — payable with the amount as transaction value for
the native currency, or with the amount as the single argument for ERC20
underlyings.  The native/ERC20 branches use the **canonical** symbol. -/
def supplyToMarket (a : WalletAgent) (o : ChainOracle)
    (tokenSymbol amount : String) : OpResult String :=
  if a.isReadonly then (.error .transactionModeRequired, [])
  else
    match getCTokenAddress a.currentNetwork
        (getCanonicalSymbolForCToken a.currentNetwork tokenSymbol) with
    | none => (.error (.validationError ("Market " ++ tokenSymbol ++ " not available")), [])
    | some cTokenAddress =>
      match checkMarketMembership a.currentNetwork o cTokenAddress with
      | (isInMarket, memberTrace) =>
        match (if isInMarket then (.ok txHash, [])
               else enterMarkets a [cTokenAddress] : OpResult String) with
        | (.error e, enterTrace) => (.error e, memberTrace ++ enterTrace)
        | (.ok _, enterTrace) =>
          if getCanonicalSymbolForCToken a.currentNetwork tokenSymbol =
              nativeCurrency a.currentNetwork then
            (.ok txHash,
             memberTrace ++ enterTrace ++
               [.write cTokenAddress "mint" [] []
                 (some (parseUnits amount (getTokenDecimals a.currentNetwork
                   (getCanonicalSymbolForCToken a.currentNetwork tokenSymbol))))])
          else
            match checkAllowanceNat a.currentNetwork o
                (getCanonicalSymbolForCToken a.currentNetwork tokenSymbol)
                cTokenAddress with
            | (.error e, allowTrace) =>
              (.error e, memberTrace ++ enterTrace ++ allowTrace)
            | (.ok currentAllowance, allowTrace) =>
              if currentAllowance < parseUnits amount (getTokenDecimals
                  a.currentNetwork
                  (getCanonicalSymbolForCToken a.currentNetwork tokenSymbol)) then
                match approveToken a
                    (getCanonicalSymbolForCToken a.currentNetwork tokenSymbol)
                    cTokenAddress none with
                | (.error e, approveTrace) =>
                  (.error e, memberTrace ++ enterTrace ++ allowTrace ++ approveTrace)
                | (.ok _, approveTrace) =>
                  (.ok txHash,
                   memberTrace ++ enterTrace ++ allowTrace ++ approveTrace ++
                     [.write cTokenAddress "mint" []
                       [parseUnits amount (getTokenDecimals a.currentNetwork
                         (getCanonicalSymbolForCToken a.currentNetwork tokenSymbol))]
                       none])
              else
                (.ok txHash,
                 memberTrace ++ enterTrace ++ allowTrace ++
                   [.write cTokenAddress "mint" []
                     [parseUnits amount (getTokenDecimals a.currentNetwork
                       (getCanonicalSymbolForCToken a.currentNetwork tokenSymbol))]
                     none])

/-- wallet.ts `borrowFromMarket` (lines 804-833). -/
def borrowFromMarket (a : WalletAgent) (tokenSymbol amount : String) : OpResult String :=
  if a.isReadonly then (.error .transactionModeRequired, [])
  else
    match getCTokenAddress a.currentNetwork
        (getCanonicalSymbolForCToken a.currentNetwork tokenSymbol) with
    | none => (.error (.validationError ("Market " ++ tokenSymbol ++ " not available")), [])
    | some cTokenAddress =>
      (.ok txHash,
       [.write cTokenAddress "borrow" []
         [parseUnits amount (getTokenDecimals a.currentNetwork
           (getCanonicalSymbolForCToken a.currentNetwork tokenSymbol))] none])

/-- wallet.ts `repayBorrow` (lines 835-894).  An omitted amount becomes
the max-uint256 literal.  NOTE (faithful to the source): the allowance
block and the native/ERC20 call-shape branch compare the **raw**
`tokenSymbol` against the native currency (lines 853 and 862), not the
canonical symbol that `supplyToMarket` uses. -/
def repayBorrow (a : WalletAgent) (o : ChainOracle)
    (tokenSymbol : String) (amount : Option String) : OpResult String :=
  if a.isReadonly then (.error .transactionModeRequired, [])
  else
    match getCTokenAddress a.currentNetwork
        (getCanonicalSymbolForCToken a.currentNetwork tokenSymbol) with
    | none => (.error (.validationError ("Market " ++ tokenSymbol ++ " not available")), [])
    | some cTokenAddress =>
      if tokenSymbol = nativeCurrency a.currentNetwork then
        (.ok txHash,
         [.write cTokenAddress "repayBorrow" [] []
           (some (match amount with
                  | some s => parseUnits s (getTokenDecimals a.currentNetwork
                      (getCanonicalSymbolForCToken a.currentNetwork tokenSymbol))
                  | none => maxUint256))])
      else
        match checkAllowanceNat a.currentNetwork o tokenSymbol cTokenAddress with
        | (.error e, allowTrace) => (.error e, allowTrace)
        | (.ok currentAllowance, allowTrace) =>
          if currentAllowance <
              (match amount with
               | some s => parseUnits s (getTokenDecimals a.currentNetwork
                   (getCanonicalSymbolForCToken a.currentNetwork tokenSymbol))
               | none => maxUint256) then
            match approveToken a tokenSymbol cTokenAddress none with
            | (.error e, approveTrace) => (.error e, allowTrace ++ approveTrace)
            | (.ok _, approveTrace) =>
              (.ok txHash,
               allowTrace ++ approveTrace ++
                 [.write cTokenAddress "repayBorrow" []
                   [(match amount with
                     | some s => parseUnits s (getTokenDecimals a.currentNetwork
                         (getCanonicalSymbolForCToken a.currentNetwork tokenSymbol))
                     | none => maxUint256)] none])
          else
            (.ok txHash,
             allowTrace ++
               [.write cTokenAddress "repayBorrow" []
                 [(match amount with
                   | some s => parseUnits s (getTokenDecimals a.currentNetwork
                       (getCanonicalSymbolForCToken a.currentNetwork tokenSymbol))
                   | none => maxUint256)] none])

/-- wallet.ts `redeemTokens` (lines 896-936): mode guard, resolution,
on-chain cToken balance read, fixed 8-decimal conversion of the requested
cToken amount, insufficient-balance check, then the `redeem` call. -/
def redeemTokens (a : WalletAgent) (o : ChainOracle)
    (tokenSymbol cTokenAmount : String) : OpResult String :=
  if a.isReadonly then (.error .transactionModeRequired, [])
  else
    match getCTokenAddress a.currentNetwork
        (getCanonicalSymbolForCToken a.currentNetwork tokenSymbol) with
    | none => (.error (.validationError ("Market " ++ tokenSymbol ++ " not available")), [])
    | some cTokenAddress =>
      if o.cTokenBalance cTokenAddress < parseUnits cTokenAmount 8 then
        (.error (.insufficientBalance ("c" ++ tokenSymbol) cTokenAmount
          (toString (o.cTokenBalance cTokenAddress))),
         [.read cTokenAddress "balanceOf" ["self"]])
      else
        (.ok txHash,
         [.read cTokenAddress "balanceOf" ["self"],
          .write cTokenAddress "redeem" [] [parseUnits cTokenAmount 8] none])

/-- wallet.ts `redeemUnderlying` (lines 938-967). -/
def redeemUnderlying (a : WalletAgent) (tokenSymbol underlyingAmount : String) :
    OpResult String :=
  if a.isReadonly then (.error .transactionModeRequired, [])
  else
    match getCTokenAddress a.currentNetwork
        (getCanonicalSymbolForCToken a.currentNetwork tokenSymbol) with
    | none => (.error (.validationError ("Market " ++ tokenSymbol ++ " not available")), [])
    | some cTokenAddress =>
      (.ok txHash,
       [.write cTokenAddress "redeemUnderlying" []
         [parseUnits underlyingAmount (getTokenDecimals a.currentNetwork
           (getCanonicalSymbolForCToken a.currentNetwork tokenSymbol))] none])

/-! ## Derived financial metrics -/

/-- wallet.ts `getAccountLiquidity` line 457:
`totalBorrowUSD > 0 ? totalCollateralUSD / totalBorrowUSD : 999`. -/
def healthFactor (totalCollateralUSD totalBorrowUSD : ℚ) : ℚ :=
  if totalBorrowUSD > 0 then totalCollateralUSD / totalBorrowUSD else 999

/-- The USD totals `getAccountLiquidity` accumulates over the account's
positions (lines 440-455): sums of per-position supply and borrow values. -/
def sumPositions (positions : List (ℚ × ℚ)) : ℚ × ℚ :=
  (positions.foldl (fun acc p => acc + p.1) 0,
   positions.foldl (fun acc p => acc + p.2) 0)

/-- wallet.ts `getAllMarkets` lines 367-376: supply APY from the raw
rate-per-block, via bigint arithmetic `rate * blocksPerYear * 10000 / 1e18`
(integer division), then divided by 100 as a JS number. -/
def supplyApy (net : NetworkType) (supplyRatePerBlock : Nat) : ℚ :=
  ((supplyRatePerBlock * blocksPerYear net * 10000) / 10 ^ 18 : ℕ) / 100

/-- wallet.ts `getAllMarkets` lines 378-381: borrow APR, same derivation. -/
def borrowApy (net : NetworkType) (borrowRatePerBlock : Nat) : ℚ :=
  ((borrowRatePerBlock * blocksPerYear net * 10000) / 10 ^ 18 : ℕ) / 100

/-! ## Trace observations -/

/-- Is this chain call a submitted `enterMarkets` transaction? -/
def isEnterMarketsTx : ChainCall → Bool
  | .write _ fn _ _ _ => fn = "enterMarkets"
  | _ => false

/-- Is this chain call a submitted `mint` transaction? -/
def isMintTx : ChainCall → Bool
  | .write _ fn _ _ _ => fn = "mint"
  | _ => false

/-- Is this chain call a submitted `approve` transaction? -/
def isApproveTx : ChainCall → Bool
  | .write _ fn _ _ _ => fn = "approve"
  | _ => false

/-- Is this chain call any submitted transaction? -/
def isSubmittedTx : ChainCall → Bool
  | .write _ _ _ _ _ => true
  | _ => false

/-- Is this chain call a read of an account balance (ERC20/cToken
`balanceOf` or a native-balance query)? -/
def isBalanceRead : ChainCall → Bool
  | .read _ fn _ => fn = "balanceOf"
  | .getBalance _ => true
  | _ => false

/-- Number of calls in a trace satisfying a predicate. -/
def countCalls (p : ChainCall → Bool) (tr : List ChainCall) : Nat :=
  (tr.filter p).length

/-- Exactly one `p`-call and exactly one `q`-call occur, and the `p`-call
precedes the `q`-call (it already occurs in the prefix strictly before the
first `q`-call). -/
def oneBeforeFirst (p q : ChainCall → Bool) (tr : List ChainCall) : Prop :=
  countCalls p tr = 1 ∧ countCalls q tr = 1 ∧
    countCalls p (tr.takeWhile (fun c => !q c)) = 1

/-- The canonical symbols `resolveTokenSymbol` can produce besides echoing
its input: for each network these are exactly its token-table symbols (the
contract-key path also lands in this set on every configured network). -/
def canonicalOutputs : NetworkType → List String
  | .kaia => ["USDT", "SIX", "BORA", "MBX", "KAIA", "stKAIA"]
  | .kub => ["KUSDT", "KUB"]
  | .etherlink => ["USDT", "XTZ"]

/-- The market roots: symbols under which a cToken address is registered. -/
def cTokenRoots (net : NetworkType) : List String :=
  (CHAIN_CONTRACTS net).filterMap
    (fun kv => if jsStartsWith kv.1 "c" then some (jsDrop kv.1 1) else none)

/-! ## Concrete fixtures for witnesses -/

/-- An oracle answering every read with zero / not-a-member. -/
def oracleZero : ChainOracle := ⟨fun _ _ => 0, fun _ => false, fun _ => 0, 0⟩

/-- An oracle whose account is already a member of every market. -/
def oracleEntered : ChainOracle := ⟨fun _ _ => 0, fun _ => true, fun _ => 0, 0⟩

/-- A transaction-mode agent on the KAIA network. -/
def agentKaiaTx : WalletAgent := ⟨.kaia, false⟩

/-- A read-only agent on the KAIA network. -/
def agentKaiaRO : WalletAgent := ⟨.kaia, true⟩

end KiloLend

set_option maxRecDepth 100000

namespace KiloLend

/-! ## Helper lemmas -/

/-- Every token-table symbol is one of the canonical outputs. -/
theorem tokenSymbol_mem_canonicalOutputs (net : NetworkType) :
    ∀ t ∈ TOKEN_CONFIGS net, t.symbol ∈ canonicalOutputs net := by
  cases net <;> decide

/-- Every canonical output is a fixed point of symbol resolution. -/
theorem canonicalOutputs_fixed (net : NetworkType) :
    ∀ y ∈ canonicalOutputs net, resolveTokenSymbol net y = y := by
  cases net <;> decide

/-- What the contract-key resolution step can answer: a token-table
symbol, or (only when the root is absent from the token table) the root
of a market key. -/
theorem resolveFromContracts_out (net : NetworkType) (norm : String)
    (kv : String × String) (v : String)
    (h : resolveFromContracts net norm kv = some v) :
    (∃ t ∈ TOKEN_CONFIGS net, v = t.symbol) ∨
    (v = jsDrop kv.1 1 ∧ jsStartsWith kv.1 "c" = true ∧
      (TOKEN_CONFIGS net).find?
        (fun t => jsToLower t.symbol = jsToLower (jsDrop kv.1 1)) = none) := by
  unfold resolveFromContracts at h
  split at h
  · split at h
    · split at h
      · rename_i t ht
        refine Or.inl ⟨t, List.mem_of_find?_eq_some ht, ?_⟩
        exact (Option.some.inj h).symm
      · rename_i hnone
        exact Or.inr ⟨(Option.some.inj h).symm, by assumption, hnone⟩
    · exact absurd h (by simp)
  · exact absurd h (by simp)

/-- On every configured network, a market key whose root is absent from
the token table does not exist; hence such a root (vacuously) lies in the
canonical outputs. -/
theorem root_without_token_mem (net : NetworkType) :
    ∀ kv ∈ CHAIN_CONTRACTS net, jsStartsWith kv.1 "c" = true →
      (TOKEN_CONFIGS net).find?
        (fun t => jsToLower t.symbol = jsToLower (jsDrop kv.1 1)) = none →
      jsDrop kv.1 1 ∈ canonicalOutputs net := by
  cases net <;> decide

/-- Resolution either echoes its input or produces one of the
finitely many canonical outputs. -/
theorem resolveTokenSymbol_mem (net : NetworkType) (s : String) :
    resolveTokenSymbol net s = s ∨
      resolveTokenSymbol net s ∈ canonicalOutputs net := by
  unfold resolveTokenSymbol
  cases h1 : (TOKEN_CONFIGS net).find?
      (fun t => jsToLower t.symbol = jsTrim (jsToLower s)) with
  | some t =>
    exact Or.inr (tokenSymbol_mem_canonicalOutputs net t (List.mem_of_find?_eq_some h1))
  | none =>
    simp only []
    cases h2 : (if jsTrim (jsToLower s) = "stkaia" then
        (TOKEN_CONFIGS net).find?
          (fun t => t.symbol = "stKAIA" ∨ t.symbol = "StKAIA")
      else none) with
    | some t =>
      refine Or.inr (tokenSymbol_mem_canonicalOutputs net t ?_)
      by_cases hc : jsTrim (jsToLower s) = "stkaia"
      · rw [if_pos hc] at h2; exact List.mem_of_find?_eq_some h2
      · rw [if_neg hc] at h2; exact absurd h2 (by simp)
    | none =>
      cases h3 : (CHAIN_CONTRACTS net).findSome?
          (resolveFromContracts net (jsTrim (jsToLower s))) with
      | some v =>
        refine Or.inr ?_
        obtain ⟨kv, hkv, hf⟩ := List.exists_of_findSome?_eq_some h3
        rcases resolveFromContracts_out net _ kv v hf with ⟨t, ht, rfl⟩ | ⟨rfl, hc, hn⟩
        · exact tokenSymbol_mem_canonicalOutputs net t ht
        · exact root_without_token_mem net kv hkv hc hn
      | none => exact Or.inl rfl

/-- A symbol under which a cToken address is found is a market root. -/
theorem mem_roots_of_getCTokenAddress (net : NetworkType) (c ad : String)
    (h : getCTokenAddress net c = some ad) : c ∈ cTokenRoots net := by
  unfold getCTokenAddress at h
  obtain ⟨kv, hkv, -⟩ := Option.map_eq_some'.mp h
  have hmem := List.mem_of_find?_eq_some hkv
  have hpred : kv.1 = c := by simpa using List.find?_some hkv
  subst hpred
  unfold cTokenRoots
  rw [List.mem_filterMap] at hmem ⊢
  obtain ⟨kv0, hkv0, hf⟩ := hmem
  refine ⟨kv0, hkv0, ?_⟩
  split at hf
  · rw [if_pos (by assumption)]
    injection hf with h2
    rw [← h2]
  · exact absurd hf (by simp)

/-- Every market root resolves to a symbol present in the token table. -/
theorem roots_token_isSome (net : NetworkType) :
    ∀ c ∈ cTokenRoots net,
      (getTokenAddress net (resolveTokenSymbol net c)).isSome = true := by
  cases net <;> decide

/-- A non-native market root never resolves to the native currency. -/
theorem roots_resolve_not_native (net : NetworkType) :
    ∀ c ∈ cTokenRoots net, c ≠ nativeCurrency net →
      resolveTokenSymbol net c ≠ nativeCurrency net := by
  cases net <;> decide

/-- The native currency always has an entry in the token table (the
native-asset sentinel address). -/
theorem native_token_address (net : NetworkType) :
    getTokenAddress net (nativeCurrency net) =
      some "0xEeeeeEeeeEeEeeEeEeEeeEEEeeeeEeeeeeeeEEeE" := by
  cases net <;> decide

/-- Trace of `supplyToMarket` when the canonical symbol is the native
currency: membership read, optional enter-markets, then a payable `mint`
carrying the amount as transaction value. -/
theorem supply_trace_native (a : WalletAgent) (o : ChainOracle)
    (sym amt addr : String) (hmode : a.isReadonly = false)
    (haddr : getCTokenAddress a.currentNetwork
      (getCanonicalSymbolForCToken a.currentNetwork sym) = some addr)
    (hn : getCanonicalSymbolForCToken a.currentNetwork sym =
      nativeCurrency a.currentNetwork) :
    supplyToMarket a o sym amt =
      (.ok txHash,
       .read (comptrollerAddress a.currentNetwork) "getAssetsIn" [] ::
       (if o.marketMember addr then []
        else [.write (comptrollerAddress a.currentNetwork) "enterMarkets"
          [addr] [] none]) ++
       [.write addr "mint" [] []
         (some (parseUnits amt (getTokenDecimals a.currentNetwork
           (getCanonicalSymbolForCToken a.currentNetwork sym))))]) := by
  unfold supplyToMarket
  rw [hmode, haddr]
  simp only [checkMarketMembership, enterMarkets, hmode, if_pos hn]
  by_cases hm : o.marketMember addr <;> simp [hm]

/-- Trace of `supplyToMarket` for an ERC20 underlying: membership read,
optional enter-markets, allowance read, optional max-uint256 approval,
then `mint` with the amount as the single call argument. -/
theorem supply_trace_erc20 (a : WalletAgent) (o : ChainOracle)
    (sym amt addr tAddr : String) (hmode : a.isReadonly = false)
    (haddr : getCTokenAddress a.currentNetwork
      (getCanonicalSymbolForCToken a.currentNetwork sym) = some addr)
    (hn : getCanonicalSymbolForCToken a.currentNetwork sym ≠
      nativeCurrency a.currentNetwork)
    (htok : getTokenAddress a.currentNetwork
      (resolveTokenSymbol a.currentNetwork
        (getCanonicalSymbolForCToken a.currentNetwork sym)) = some tAddr)
    (hrn : resolveTokenSymbol a.currentNetwork
      (getCanonicalSymbolForCToken a.currentNetwork sym) ≠
      nativeCurrency a.currentNetwork) :
    supplyToMarket a o sym amt =
      (.ok txHash,
       .read (comptrollerAddress a.currentNetwork) "getAssetsIn" [] ::
       (if o.marketMember addr then []
        else [.write (comptrollerAddress a.currentNetwork) "enterMarkets"
          [addr] [] none]) ++
       .read tAddr "allowance" [addr] ::
       (if o.allowance tAddr addr < parseUnits amt (getTokenDecimals
           a.currentNetwork (getCanonicalSymbolForCToken a.currentNetwork sym))
        then [.write tAddr "approve" [addr] [maxUint256] none]
        else []) ++
       [.write addr "mint" []
         [parseUnits amt (getTokenDecimals a.currentNetwork
           (getCanonicalSymbolForCToken a.currentNetwork sym))] none]) := by
  by_cases hm : o.marketMember addr <;>
    by_cases hal : o.allowance tAddr addr < parseUnits amt (getTokenDecimals
      a.currentNetwork (getCanonicalSymbolForCToken a.currentNetwork sym)) <;>
    simp [supplyToMarket, hmode, haddr, checkMarketMembership, enterMarkets,
      checkAllowanceNat, approveToken, htok, hn, hrn, hm, hal]

/-! ## Claim theorems -/

/-- C1: every mutating operation of the wallet agent (approveToken,
enterMarkets, sendNativeToken, sendERC20Token, supplyToMarket,
borrowFromMarket, repayBorrow, redeemTokens, redeemUnderlying), invoked on
an agent constructed without a signing identity, fails with the
transaction-mode-required error and performs zero chain-client calls. -/
theorem C1_readonly_mode_guard (a : WalletAgent) (o : ChainOracle)
    (sym spenderAddr toAddr amt camt uamt : String) (amtOpt : Option String)
    (addrs : List String) (h : a.isReadonly = true) :
    requireTransactionMode a = .error .transactionModeRequired ∧
    approveToken a sym spenderAddr amtOpt = (.error .transactionModeRequired, []) ∧
    enterMarkets a addrs = (.error .transactionModeRequired, []) ∧
    sendNativeToken a o toAddr amt = (.error .transactionModeRequired, []) ∧
    sendERC20Token a sym toAddr amt = (.error .transactionModeRequired, []) ∧
    supplyToMarket a o sym amt = (.error .transactionModeRequired, []) ∧
    borrowFromMarket a sym amt = (.error .transactionModeRequired, []) ∧
    repayBorrow a o sym amtOpt = (.error .transactionModeRequired, []) ∧
    redeemTokens a o sym camt = (.error .transactionModeRequired, []) ∧
    redeemUnderlying a sym uamt = (.error .transactionModeRequired, []) := by
  refine ⟨?_, ?_, ?_, ?_, ?_, ?_, ?_, ?_, ?_, ?_⟩ <;>
    simp [requireTransactionMode, approveToken, enterMarkets, sendNativeToken,
      sendERC20Token, supplyToMarket, borrowFromMarket, repayBorrow,
      redeemTokens, redeemUnderlying, h]

/-- C1 witness: the guard at a concrete read-only agent and inputs. -/
theorem C1_readonly_mode_guard_witness :
    agentKaiaRO.isReadonly = true ∧
    supplyToMarket agentKaiaRO oracleZero "USDT" "1" =
      (.error .transactionModeRequired, []) ∧
    repayBorrow agentKaiaRO oracleZero "USDT" none =
      (.error .transactionModeRequired, []) :=
  ⟨rfl,
   (C1_readonly_mode_guard agentKaiaRO oracleZero "USDT" "0xS" "0xT" "1" "1" "1"
     none [] rfl).2.2.2.2.2.1,
   (C1_readonly_mode_guard agentKaiaRO oracleZero "USDT" "0xS" "0xT" "1" "1" "1"
     none [] rfl).2.2.2.2.2.2.2.1⟩

/-- C2 (failing input for the claim): on the KAIA network, `repayBorrow`
invoked with the lower-case native symbol "kaia" resolves the market to
the native cKAIA contract, yet submits the ERC20 call shape (amount as the
single argument, no transaction value), while `supplyToMarket` with the
same input uses the native call shape (empty argument list, amount as
transaction value) — the two operations do not branch on the same
criterion, because `repayBorrow` compares the raw input symbol. -/
theorem C2_repay_call_shape_failing_input :
    getCanonicalSymbolForCToken .kaia "kaia" = "KAIA" ∧
    nativeCurrency .kaia = "KAIA" ∧
    repayBorrow agentKaiaTx oracleEntered "kaia" (some "1") =
      (.ok txHash,
       [.write "0x2029f3E3C667EBd68b1D29dbd61dc383BdbB56e5" "repayBorrow" []
         [1000000000000000000] none]) ∧
    supplyToMarket agentKaiaTx oracleEntered "kaia" "1" =
      (.ok txHash,
       [.read "0x2591d179a0B1dB1c804210E111035a3a13c95a48" "getAssetsIn" [],
        .write "0x2029f3E3C667EBd68b1D29dbd61dc383BdbB56e5" "mint" [] []
          (some 1000000000000000000)]) := by
  refine ⟨by decide, by decide, by decide, by decide⟩

/-- C6: the account health factor is the sentinel 999 when the summed
borrow value is zero, and the collateral/borrow quotient when the summed
borrow value is positive, for every nonnegative combination of summed
position values. -/
theorem C6_healthFactor_sentinel (positions : List (ℚ × ℚ))
    (hpos : ∀ p ∈ positions, 0 ≤ p.1 ∧ 0 ≤ p.2) :
    ((sumPositions positions).2 = 0 →
      healthFactor (sumPositions positions).1 (sumPositions positions).2 = 999) ∧
    (0 < (sumPositions positions).2 →
      healthFactor (sumPositions positions).1 (sumPositions positions).2 =
        (sumPositions positions).1 / (sumPositions positions).2) := by
  constructor
  · intro h; simp [healthFactor, h]
  · intro h; simp [healthFactor, h]

/-- C6 witness: one supplied/borrowed position of values (10, 2). -/
theorem C6_healthFactor_sentinel_witness :
    (0 : ℚ) < (sumPositions [((10 : ℚ), (2 : ℚ))]).2 ∧
    healthFactor (sumPositions [((10 : ℚ), (2 : ℚ))]).1
        (sumPositions [((10 : ℚ), (2 : ℚ))]).2 =
      (sumPositions [((10 : ℚ), (2 : ℚ))]).1 /
        (sumPositions [((10 : ℚ), (2 : ℚ))]).2 :=
  ⟨by norm_num [sumPositions],
   (C6_healthFactor_sentinel [((10 : ℚ), (2 : ℚ))]
     (by intro p hp; simp at hp; simp [hp])).2
     (by norm_num [sumPositions])⟩

/-- C8: both annualized rates are derived as
`(ratePerBlock * blocksPerYear * 10000 / 10^18) / 100` with the network's
own blocks-per-year constant (15768000 on kaia, 6307200 on kub, 39420000
on etherlink — three distinct values, not one hardcoded constant), and a
zero rate-per-block yields an APY of exactly 0. -/
theorem C8_apy_derivation :
    (∀ (net : NetworkType) (rate : Nat),
      supplyApy net rate =
        ((rate * blocksPerYear net * 10000) / 10 ^ 18 : ℕ) / 100 ∧
      borrowApy net rate =
        ((rate * blocksPerYear net * 10000) / 10 ^ 18 : ℕ) / 100) ∧
    blocksPerYear .kaia = 15768000 ∧
    blocksPerYear .kub = 6307200 ∧
    blocksPerYear .etherlink = 39420000 ∧
    blocksPerYear .kaia ≠ blocksPerYear .kub ∧
    blocksPerYear .kub ≠ blocksPerYear .etherlink ∧
    blocksPerYear .kaia ≠ blocksPerYear .etherlink ∧
    (∀ net : NetworkType, supplyApy net 0 = 0 ∧ borrowApy net 0 = 0) := by
  refine ⟨fun net rate => ⟨rfl, rfl⟩, rfl, rfl, rfl, by decide, by decide,
    by decide, fun net => ⟨?_, ?_⟩⟩ <;>
    simp [supplyApy, borrowApy]

/-- C9: `redeemTokens` converts the requested cToken amount with the fixed
8-decimal cToken convention (whatever the underlying token's decimals),
and when the converted amount exceeds the caller's on-chain cToken balance
it fails with InsufficientBalanceError after the single balance read,
submitting no transaction; otherwise the single submitted `redeem` call
carries exactly the 8-decimal-converted amount. -/
theorem C9_redeem_insufficient_balance (a : WalletAgent) (o : ChainOracle)
    (sym camt addr : String) (hmode : a.isReadonly = false)
    (haddr : getCTokenAddress a.currentNetwork
      (getCanonicalSymbolForCToken a.currentNetwork sym) = some addr) :
    (o.cTokenBalance addr < parseUnits camt 8 →
      redeemTokens a o sym camt =
        (.error (.insufficientBalance ("c" ++ sym) camt
          (toString (o.cTokenBalance addr))),
         [.read addr "balanceOf" ["self"]])) ∧
    (parseUnits camt 8 ≤ o.cTokenBalance addr →
      redeemTokens a o sym camt =
        (.ok txHash,
         [.read addr "balanceOf" ["self"],
          .write addr "redeem" [] [parseUnits camt 8] none])) := by
  constructor
  · intro h
    simp [redeemTokens, hmode, haddr, h]
  · intro h
    simp [redeemTokens, hmode, haddr, not_lt.mpr h]

/-- C9 witness: redeeming 2 cUSDT with a zero cToken balance fails with
InsufficientBalanceError and no submitted transaction. -/
theorem C9_redeem_insufficient_balance_witness :
    oracleZero.cTokenBalance "0x20A2Cbc68fbee094754b2F03d15B1F5466f1F649" <
      parseUnits "2" 8 ∧
    redeemTokens agentKaiaTx oracleZero "USDT" "2" =
      (.error (.insufficientBalance ("c" ++ "USDT") "2"
        (toString (oracleZero.cTokenBalance
          "0x20A2Cbc68fbee094754b2F03d15B1F5466f1F649"))),
       [.read "0x20A2Cbc68fbee094754b2F03d15B1F5466f1F649" "balanceOf" ["self"]]) :=
  ⟨by decide,
   (C9_redeem_insufficient_balance agentKaiaTx oracleZero "USDT" "2"
     "0x20A2Cbc68fbee094754b2F03d15B1F5466f1F649" rfl (by decide)).1 (by decide)⟩

/-- C10: `checkAllowance` on any symbol resolving to the active network's
native currency answers the max-uint256 decimal string without any chain
read; a trace is nonempty only for a non-native configured ERC20 token,
and then it is exactly one allowance read of that token's contract. -/
theorem C10_checkAllowance_native_max (net : NetworkType) (o : ChainOracle)
    (sym spender : String) :
    (resolveTokenSymbol net sym = nativeCurrency net →
      checkAllowance net o sym spender = (.ok MAX_UINT256_STRING, [])) ∧
    ((checkAllowance net o sym spender).2 ≠ [] →
      resolveTokenSymbol net sym ≠ nativeCurrency net ∧
      ∃ tokenAddress,
        getTokenAddress net (resolveTokenSymbol net sym) = some tokenAddress ∧
        (checkAllowance net o sym spender).2 =
          [.read tokenAddress "allowance" [spender]]) := by
  constructor
  · intro h
    unfold checkAllowance
    rw [h, native_token_address net]
    simp
  · intro hne
    by_cases hn : resolveTokenSymbol net sym = nativeCurrency net
    · exfalso
      apply hne
      unfold checkAllowance
      rw [hn, native_token_address net]
      simp
    · refine ⟨hn, ?_⟩
      unfold checkAllowance at hne ⊢
      cases hta : getTokenAddress net (resolveTokenSymbol net sym) with
      | none => rw [hta] at hne; exact absurd rfl hne
      | some ad => exact ⟨ad, rfl, by simp [hn]⟩

/-- C3: supplying a market the caller has not entered submits exactly one
enter-markets transaction, before the mint transaction; supplying an
already-entered market submits zero enter-markets transactions. -/
theorem C3_supply_enter_markets_once (a : WalletAgent) (o : ChainOracle)
    (sym amt addr : String) (hmode : a.isReadonly = false)
    (haddr : getCTokenAddress a.currentNetwork
      (getCanonicalSymbolForCToken a.currentNetwork sym) = some addr) :
    (o.marketMember addr = false →
      oneBeforeFirst isEnterMarketsTx isMintTx (supplyToMarket a o sym amt).2) ∧
    (o.marketMember addr = true →
      countCalls isEnterMarketsTx (supplyToMarket a o sym amt).2 = 0) := by
  have hc := mem_roots_of_getCTokenAddress _ _ _ haddr
  by_cases hn : getCanonicalSymbolForCToken a.currentNetwork sym =
      nativeCurrency a.currentNetwork
  · rw [supply_trace_native a o sym amt addr hmode haddr hn]
    constructor
    · intro hm
      refine ⟨?_, ?_, ?_⟩ <;>
        simp [hm, countCalls, isEnterMarketsTx, isMintTx, List.filter,
          List.takeWhile]
    · intro hm
      simp [hm, countCalls, isEnterMarketsTx, List.filter]
  · obtain ⟨tAddr, htok⟩ :=
      Option.isSome_iff_exists.mp (roots_token_isSome a.currentNetwork _ hc)
    have hrn := roots_resolve_not_native a.currentNetwork _ hc hn
    rw [supply_trace_erc20 a o sym amt addr tAddr hmode haddr hn htok hrn]
    constructor
    · intro hm
      by_cases hal : o.allowance tAddr addr < parseUnits amt (getTokenDecimals
          a.currentNetwork (getCanonicalSymbolForCToken a.currentNetwork sym)) <;>
        (refine ⟨?_, ?_, ?_⟩ <;>
          simp [hm, hal, countCalls, isEnterMarketsTx, isMintTx, List.filter,
            List.takeWhile])
    · intro hm
      by_cases hal : o.allowance tAddr addr < parseUnits amt (getTokenDecimals
          a.currentNetwork (getCanonicalSymbolForCToken a.currentNetwork sym)) <;>
        simp [hm, hal, countCalls, isEnterMarketsTx, List.filter]

/-- C3 witness: supplying USDT on KAIA while not entered issues the
enter-markets transaction before the mint; while entered it issues none. -/
theorem C3_supply_enter_markets_once_witness :
    (oracleZero.marketMember "0x20A2Cbc68fbee094754b2F03d15B1F5466f1F649" = false ∧
      oneBeforeFirst isEnterMarketsTx isMintTx
        (supplyToMarket agentKaiaTx oracleZero "USDT" "1").2) ∧
    (oracleEntered.marketMember "0x20A2Cbc68fbee094754b2F03d15B1F5466f1F649" = true ∧
      countCalls isEnterMarketsTx
        (supplyToMarket agentKaiaTx oracleEntered "USDT" "1").2 = 0) :=
  ⟨⟨rfl,
    (C3_supply_enter_markets_once agentKaiaTx oracleZero "USDT" "1"
      "0x20A2Cbc68fbee094754b2F03d15B1F5466f1F649" rfl (by decide)).1 rfl⟩,
   ⟨rfl,
    (C3_supply_enter_markets_once agentKaiaTx oracleEntered "USDT" "1"
      "0x20A2Cbc68fbee094754b2F03d15B1F5466f1F649" rfl (by decide)).2 rfl⟩⟩

/-- C4: supplying an ERC20-backed (non-native) market with allowance below
the encoded amount submits exactly one approval — for the maximum
representable uint256 value — before the mint call; with sufficient
allowance it submits zero approvals. -/
theorem C4_supply_approval (a : WalletAgent) (o : ChainOracle)
    (sym amt addr : String) (hmode : a.isReadonly = false)
    (haddr : getCTokenAddress a.currentNetwork
      (getCanonicalSymbolForCToken a.currentNetwork sym) = some addr)
    (hn : getCanonicalSymbolForCToken a.currentNetwork sym ≠
      nativeCurrency a.currentNetwork) :
    ∃ tAddr,
      getTokenAddress a.currentNetwork
        (resolveTokenSymbol a.currentNetwork
          (getCanonicalSymbolForCToken a.currentNetwork sym)) = some tAddr ∧
      (o.allowance tAddr addr < parseUnits amt (getTokenDecimals
          a.currentNetwork (getCanonicalSymbolForCToken a.currentNetwork sym)) →
        (supplyToMarket a o sym amt).2.filter isApproveTx =
          [.write tAddr "approve" [addr] [maxUint256] none] ∧
        oneBeforeFirst isApproveTx isMintTx (supplyToMarket a o sym amt).2) ∧
      (parseUnits amt (getTokenDecimals a.currentNetwork
          (getCanonicalSymbolForCToken a.currentNetwork sym)) ≤
         o.allowance tAddr addr →
        countCalls isApproveTx (supplyToMarket a o sym amt).2 = 0) := by
  have hc := mem_roots_of_getCTokenAddress _ _ _ haddr
  obtain ⟨tAddr, htok⟩ :=
    Option.isSome_iff_exists.mp (roots_token_isSome a.currentNetwork _ hc)
  have hrn := roots_resolve_not_native a.currentNetwork _ hc hn
  refine ⟨tAddr, htok, ?_, ?_⟩ <;>
    rw [supply_trace_erc20 a o sym amt addr tAddr hmode haddr hn htok hrn]
  · intro hal
    constructor
    · by_cases hm : o.marketMember addr <;>
        simp [hm, hal, isApproveTx, List.filter]
    · by_cases hm : o.marketMember addr <;>
        (refine ⟨?_, ?_, ?_⟩ <;>
          simp [hm, hal, countCalls, isApproveTx, isMintTx, List.filter,
            List.takeWhile])
  · intro hal
    by_cases hm : o.marketMember addr <;>
      simp [hm, not_lt.mpr hal, countCalls, isApproveTx, List.filter]

/-- C4 witness: supplying 1 USDT on KAIA with zero prior allowance issues
the single max-uint256 approval before the mint; with an oracle granting a
huge allowance it issues none. -/
theorem C4_supply_approval_witness :
    ∃ tAddr,
      getTokenAddress agentKaiaTx.currentNetwork
        (resolveTokenSymbol agentKaiaTx.currentNetwork
          (getCanonicalSymbolForCToken agentKaiaTx.currentNetwork "USDT")) =
        some tAddr ∧
      (oracleEntered.allowance tAddr "0x20A2Cbc68fbee094754b2F03d15B1F5466f1F649" <
         parseUnits "1" (getTokenDecimals agentKaiaTx.currentNetwork
           (getCanonicalSymbolForCToken agentKaiaTx.currentNetwork "USDT")) →
        (supplyToMarket agentKaiaTx oracleEntered "USDT" "1").2.filter isApproveTx =
          [.write tAddr "approve" ["0x20A2Cbc68fbee094754b2F03d15B1F5466f1F649"]
            [maxUint256] none] ∧
        oneBeforeFirst isApproveTx isMintTx
          (supplyToMarket agentKaiaTx oracleEntered "USDT" "1").2) ∧
      (parseUnits "1" (getTokenDecimals agentKaiaTx.currentNetwork
          (getCanonicalSymbolForCToken agentKaiaTx.currentNetwork "USDT")) ≤
         oracleEntered.allowance tAddr
           "0x20A2Cbc68fbee094754b2F03d15B1F5466f1F649" →
        countCalls isApproveTx
          (supplyToMarket agentKaiaTx oracleEntered "USDT" "1").2 = 0) :=
  C4_supply_approval agentKaiaTx oracleEntered "USDT" "1"
    "0x20A2Cbc68fbee094754b2F03d15B1F5466f1F649" rfl (by decide) (by decide)

/-- C5: with the amount argument omitted, `repayBorrow` uses the maximum
representable uint256 value as the repay amount (as the call argument for
the ERC20 shape or the transaction value for the native shape) and never
reads the caller's account balance; `approveToken` with the amount omitted
submits a single approval for the maximum representable uint256 value. -/
theorem C5_omitted_amount_is_max :
    (∀ (a : WalletAgent) (o : ChainOracle) (sym addr tAddr : String),
      a.isReadonly = false →
      getCTokenAddress a.currentNetwork
        (getCanonicalSymbolForCToken a.currentNetwork sym) = some addr →
      getTokenAddress a.currentNetwork
        (resolveTokenSymbol a.currentNetwork sym) = some tAddr →
      (∃ pre aArgs nArgs v,
        (repayBorrow a o sym none).2 =
          pre ++ [.write addr "repayBorrow" aArgs nArgs v] ∧
        (nArgs = [maxUint256] ∨ v = some maxUint256)) ∧
      countCalls isBalanceRead (repayBorrow a o sym none).2 = 0) ∧
    (∀ (a : WalletAgent) (sym spender tAddr : String),
      a.isReadonly = false →
      getTokenAddress a.currentNetwork
        (resolveTokenSymbol a.currentNetwork sym) = some tAddr →
      resolveTokenSymbol a.currentNetwork sym ≠
        nativeCurrency a.currentNetwork →
      approveToken a sym spender none =
        (.ok txHash, [.write tAddr "approve" [spender] [maxUint256] none])) := by
  constructor
  · intro a o sym addr tAddr hmode haddr htok
    by_cases hnat : sym = nativeCurrency a.currentNetwork
    · subst hnat
      constructor
      · refine ⟨[], [], [], some maxUint256, ?_, Or.inr rfl⟩
        simp [repayBorrow, hmode, haddr]
      · simp [repayBorrow, hmode, haddr, countCalls, isBalanceRead,
          List.filter]
    · by_cases hrn : resolveTokenSymbol a.currentNetwork sym =
          nativeCurrency a.currentNetwork
      · have htokN : getTokenAddress a.currentNetwork
            (nativeCurrency a.currentNetwork) = some tAddr := hrn ▸ htok
        constructor
        · refine ⟨[], [], [maxUint256], none, ?_, Or.inl rfl⟩
          simp [repayBorrow, hmode, haddr, hnat, checkAllowanceNat, htokN, hrn]
        · simp [repayBorrow, hmode, haddr, hnat, checkAllowanceNat, htokN, hrn,
            countCalls, isBalanceRead, List.filter]
      · by_cases hal : o.allowance tAddr addr < maxUint256
        · constructor
          · refine ⟨[.read tAddr "allowance" [addr],
              .write tAddr "approve" [addr] [maxUint256] none],
              [], [maxUint256], none, ?_, Or.inl rfl⟩
            simp [repayBorrow, hmode, haddr, hnat, checkAllowanceNat, htok,
              hrn, hal, approveToken]
          · simp [repayBorrow, hmode, haddr, hnat, checkAllowanceNat, htok,
              hrn, hal, approveToken, countCalls, isBalanceRead, List.filter]
        · constructor
          · refine ⟨[.read tAddr "allowance" [addr]],
              [], [maxUint256], none, ?_, Or.inl rfl⟩
            simp [repayBorrow, hmode, haddr, hnat, checkAllowanceNat, htok,
              hrn, hal]
          · simp [repayBorrow, hmode, haddr, hnat, checkAllowanceNat, htok,
              hrn, hal, countCalls, isBalanceRead, List.filter]
  · intro a sym spender tAddr hmode htok hrn
    simp [approveToken, hmode, htok, hrn]

/-- C5 witness: repaying USDT on KAIA with no amount submits the repay
call with the max-uint256 argument and reads no balance; approving USDT
with no amount approves max-uint256. -/
theorem C5_omitted_amount_is_max_witness :
    ((∃ pre aArgs nArgs v,
        (repayBorrow agentKaiaTx oracleZero "USDT" none).2 =
          pre ++ [.write "0x20A2Cbc68fbee094754b2F03d15B1F5466f1F649"
            "repayBorrow" aArgs nArgs v] ∧
        (nArgs = [maxUint256] ∨ v = some maxUint256)) ∧
      countCalls isBalanceRead
        (repayBorrow agentKaiaTx oracleZero "USDT" none).2 = 0) ∧
    approveToken agentKaiaTx "USDT" "0xSpender" none =
      (.ok txHash,
       [.write "0xd077A400968890Eacc75cdc901F0356c943e4fDb" "approve"
         ["0xSpender"] [maxUint256] none]) :=
  ⟨C5_omitted_amount_is_max.1 agentKaiaTx oracleZero "USDT"
     "0x20A2Cbc68fbee094754b2F03d15B1F5466f1F649"
     "0xd077A400968890Eacc75cdc901F0356c943e4fDb" rfl (by decide) (by decide),
   C5_omitted_amount_is_max.2 agentKaiaTx "USDT" "0xSpender"
     "0xd077A400968890Eacc75cdc901F0356c943e4fDb" rfl (by decide) (by decide)⟩

/-- When some table entry matches the normalized input case-insensitively,
resolution answers with the first such entry's symbol. -/
theorem resolve_table_hit (net : NetworkType) (s : String) (t : TokenEntry)
    (ht : t ∈ TOKEN_CONFIGS net)
    (h : jsToLower t.symbol = jsTrim (jsToLower s)) :
    ∃ u, (TOKEN_CONFIGS net).find?
        (fun u => jsToLower u.symbol = jsTrim (jsToLower s)) = some u ∧
      resolveTokenSymbol net s = u.symbol := by
  have hsome : ((TOKEN_CONFIGS net).find?
      (fun u => jsToLower u.symbol = jsTrim (jsToLower s))).isSome := by
    rw [List.find?_isSome]
    exact ⟨t, ht, by simp [h]⟩
  obtain ⟨u, hu⟩ := Option.isSome_iff_exists.mp hsome
  refine ⟨u, hu, ?_⟩
  unfold resolveTokenSymbol
  rw [hu]

/-- C7: token symbol resolution is idempotent for every input string, and
case-insensitive: any two casings of a symbol present in the active
network's token table resolve to the same canonical table symbol. -/
theorem C7_resolution_idempotent_case_insensitive :
    (∀ (net : NetworkType) (s : String),
      resolveTokenSymbol net (resolveTokenSymbol net s) =
        resolveTokenSymbol net s) ∧
    (∀ (net : NetworkType) (t : TokenEntry) (s1 s2 : String),
      t ∈ TOKEN_CONFIGS net →
      jsTrim (jsToLower s1) = jsToLower t.symbol →
      jsTrim (jsToLower s2) = jsToLower t.symbol →
      resolveTokenSymbol net s1 = resolveTokenSymbol net s2 ∧
      ∃ u ∈ TOKEN_CONFIGS net, jsToLower u.symbol = jsToLower t.symbol ∧
        resolveTokenSymbol net s1 = u.symbol) := by
  constructor
  · intro net s
    rcases resolveTokenSymbol_mem net s with h | h
    · rw [h]; exact h
    · exact canonicalOutputs_fixed net _ h
  · intro net t s1 s2 ht h1 h2
    obtain ⟨u1, hu1, hr1⟩ := resolve_table_hit net s1 t ht (by rw [h1])
    obtain ⟨u2, hu2, hr2⟩ := resolve_table_hit net s2 t ht (by rw [h2])
    have hmem1 := List.mem_of_find?_eq_some hu1
    have hp1 : jsToLower u1.symbol = jsTrim (jsToLower s1) := by
      simpa using List.find?_some hu1
    have h12 : u1 = u2 := by
      simp only [h1] at hu1
      simp only [h2] at hu2
      exact Option.some.inj (hu1.symm.trans hu2)
    refine ⟨?_, u1, hmem1, ?_, hr1⟩
    · rw [hr1, hr2, h12]
    · rw [hp1, h1]

/-- C7 witness: on KAIA, "usdt" and "USDT" both resolve to the canonical
table symbol "USDT", and resolution of "usdt" is idempotent. -/
theorem C7_resolution_idempotent_case_insensitive_witness :
    resolveTokenSymbol .kaia "usdt" = "USDT" ∧
    resolveTokenSymbol .kaia (resolveTokenSymbol .kaia "usdt") =
      resolveTokenSymbol .kaia "usdt" ∧
    (resolveTokenSymbol .kaia "usdt" = resolveTokenSymbol .kaia "USDT" ∧
      ∃ u ∈ TOKEN_CONFIGS .kaia,
        jsToLower u.symbol =
          jsToLower (TokenEntry.mk "Tether USD" "USDT" 6
            "0xd077A400968890Eacc75cdc901F0356c943e4fDb").symbol ∧
        resolveTokenSymbol .kaia "usdt" = u.symbol) :=
  ⟨by decide,
   C7_resolution_idempotent_case_insensitive.1 .kaia "usdt",
   C7_resolution_idempotent_case_insensitive.2 .kaia
     (TokenEntry.mk "Tether USD" "USDT" 6
       "0xd077A400968890Eacc75cdc901F0356c943e4fDb") "usdt" "USDT"
     (by decide) (by decide) (by decide)⟩

/-- C10 witness: "kaia" resolves to the native KAIA currency, and
checkAllowance answers the max-uint256 string with an empty trace. -/
theorem C10_checkAllowance_native_max_witness :
    resolveTokenSymbol .kaia "kaia" = nativeCurrency .kaia ∧
    checkAllowance .kaia oracleZero "kaia" "0xSpender" =
      (.ok MAX_UINT256_STRING, []) :=
  ⟨by decide,
   (C10_checkAllowance_native_max .kaia oracleZero "kaia" "0xSpender").1
     (by decide)⟩

end KiloLend
